import Mathlib

set_option linter.unusedVariables false

/-!
Shallow embedding of src/src/dash_plate/plot.py (class Plate) and proofs about it.

Modelling conventions:
* Python numbers and float literals are modelled as exact rationals; the Python
  int() conversion applied to a rational is truncation toward zero (pyInt below).
* Python None is Option.none; a per-well datum (value, color or overlay text
  entry) is a number or a string, modelled by the type Val.
* Python exceptions raised by this module are the error side of Except, with one
  PyErr constructor per distinct exception kind.
* The plotly objects the module builds (go.Scatter, go.Figure, the marker,
  annotation and shape dicts) are modelled as passive Lean structures holding
  exactly the fields this module sets; fields the module always sets to the
  same constant (for example showarrow=False) are kept where cheap.
* The keyword passthrough (**kwargs forwarded verbatim to go.Scatter) carries
  no logic and is not modelled.
-/

/-- A per-well datum as the Python code sees it: a number or a string. -/
inductive Val where
  | num (q : ℚ)
  | str (s : String)
deriving DecidableEq

/-- Models the Python str() conversion applied to a well value: strings pass
through unchanged, numbers are printed. The exact digit string produced for a
number is irrelevant to every property proved below. -/
def pyStr : Val → String
  | .num q => toString q
  | .str s => s

/-- The distinct exception kinds the module can raise.
inputError is the ValueError raised by pad_or_check (the InputError of the
spec); invalidWellName is the ValueError raised by normalize_well (the
InvalidWellNameError of the spec); the rest are the built-in Python exceptions
TypeError, KeyError, IndexError and ZeroDivisionError. -/
inductive PyErr where
  | inputError
  | invalidWellName
  | typeError
  | keyError
  | indexError
  | zeroDivisionError
deriving DecidableEq

/-- A value passed for one of the per-well sequence parameters: either an
actual sequence (a Python list with nullable entries) or a plain string, which
Python also treats as a sized sequence in pad_or_check. -/
inductive SeqArg (α : Type) where
  | list (xs : List (Option α))
  | str (s : String)
deriving DecidableEq

/-- True on ok results, false on raised exceptions. -/
def exceptIsOk : Except ε α → Bool
  | .ok _ => true
  | .error _ => false

/-- Python int() applied to a rational: truncation toward zero. -/
def pyInt (q : ℚ) : ℤ := if 0 ≤ q then q.floor else q.ceil

/-- A sequence right-padded with nulls up to length n. -/
def padded (n : ℕ) (xs : List (Option α)) : List (Option α) :=
  xs ++ List.replicate (n - xs.length) none

/-- Source lines 109-114, the inner function pad_or_check of Plate._plate_figure:
a missing sequence becomes a list of n_wells nulls; a list longer than n_wells
raises ValueError (InputError); a shorter list is right-padded with nulls.
When the argument is a Python string s, len(s) is its character count, and if
that passes the length check, the concatenation s + [None]*k raises TypeError,
because a string cannot be concatenated with a list. -/
def pad_or_check (n_wells : ℕ) : Option (SeqArg α) → Except PyErr (List (Option α))
  | none => .ok (List.replicate n_wells none)
  | some (.list xs) =>
      if n_wells < xs.length then .error .inputError
      else .ok (padded n_wells xs)
  | some (.str s) =>
      if n_wells < s.length then .error .inputError
      else .error .typeError

/-- True when a color entry is a Python string or None, mirroring the test
isinstance(c, (str, type(None))) at source line 122. -/
def isStrOrNone : Option Val → Bool
  | none => true
  | some (.str _) => true
  | some (.num _) => false

/-- Source lines 119-125: when colors is provided it is padded or rejected and,
if every entry is a string or null, nulls become the transparent color
"rgba(0,0,0,0)"; when colors is omitted it is derived from the padded values by
substituting 0 for nulls. -/
def resolve_colors (n_wells : ℕ) (vs : List (Option Val)) :
    Option (SeqArg Val) → Except PyErr (List (Option Val))
  | none => .ok (vs.map (fun v => some (v.getD (.num 0))))
  | some arg => do
      let cs ← pad_or_check n_wells (some arg)
      if cs.all isStrOrNone then
        .ok (cs.map (fun c => some (c.getD (.str "rgba(0,0,0,0)"))))
      else
        .ok cs

/-- The row label character for row index i, chr(ord(A) + i), source line 127. -/
def rowChar (i : ℕ) : Char := Char.ofNat ('A'.toNat + i)

/-- The canonical well name for row index i and column index j (column number
j + 1), the f-string at source line 138. -/
def wellName (i j : ℕ) : String := toString (rowChar i) ++ toString (j + 1)

/-- The row-major enumeration of (row index, column index) pairs produced by
the nested loops at source lines 133-140. -/
def wellGrid (n_rows n_columns : ℕ) : List (ℕ × ℕ) :=
  (List.range n_rows).flatMap (fun i => (List.range n_columns).map (fun j => (i, j)))

/-- The marker dict of source lines 145-163: each field is present (some) or
absent (none), mirroring the keys of the Python dict. -/
structure MarkerDict where
  size : Option ℚ := none
  symbol : Option String := none
  color : Option (List (Option Val)) := none
  lineColor : Option String := none
  lineWidth : Option ℚ := none
  showscale : Option Bool := none
  colorscale : Option String := none
  colorbarTitle : Option String := none
deriving DecidableEq

/-- Source lines 145-163: when no marker dict is supplied, a default one is
built, with showscale handling depending on whether colors were user-supplied;
when one is supplied, a copy gets size, line width and color filled in by
setdefault when absent. -/
def build_marker (marker : Option MarkerDict) (ms : ℚ) (cl : List (Option Val))
    (using_custom_colors showscale : Bool) : MarkerDict :=
  match marker with
  | none =>
      let base : MarkerDict :=
        { size := some ms, symbol := some "circle", color := some cl,
          lineColor := some "black", lineWidth := some 1 }
      if using_custom_colors then
        { base with showscale := some false }
      else
        { base with colorscale := some "Blues", showscale := some showscale,
                    colorbarTitle := if showscale then some "Value" else none }
  | some m =>
      { m with size := some (m.size.getD ms),
               lineWidth := some (m.lineWidth.getD 1),
               color := some (m.color.getD cl) }

/-- One plotly annotation dict as built at source lines 176-194 (showarrow is
always False there). -/
structure AnnotationDict where
  x : ℚ
  y : ℚ
  text : String
  fontSize : ℕ
  showarrow : Bool
  xanchor : Option String
  yanchor : Option String
deriving DecidableEq

/-- Column header labels, source lines 177-185: number c + 0.4 on x, placed at
y = n_rows + 0.4, anchored at the bottom. -/
def columnLabelAnnotations (n_rows n_columns : ℕ) (font_size : ℕ) : List AnnotationDict :=
  (List.range n_columns).map (fun j =>
    { x := ((j + 1 : ℕ) : ℚ) + 2/5, y := (n_rows : ℚ) + 2/5, text := toString (j + 1),
      fontSize := font_size, showarrow := false, xanchor := none, yanchor := some "bottom" })

/-- Row header labels, source lines 186-194: letter at x = 0.5 + label_pad,
y = n_rows - i, anchored at the left. -/
def rowLabelAnnotations (n_rows : ℕ) (label_pad : ℚ) (font_size : ℕ) : List AnnotationDict :=
  (List.range n_rows).map (fun (i : ℕ) =>
    { x := 1/2 + label_pad, y := (n_rows : ℚ) - (i : ℚ), text := toString (rowChar i),
      fontSize := font_size, showarrow := false, xanchor := some "left", yanchor := none })

/-- One plotly shape dict as built at source lines 201-209. -/
structure ShapeDict where
  kind : String
  x0 : ℚ
  y0 : ℚ
  x1 : ℚ
  y1 : ℚ
  lineColor : String
  lineWidth : ℚ
  layer : String
deriving DecidableEq

/-- The decorative frame, source lines 196-209: a gray rounded rectangle plus
five black border segments, all drawn below the markers. Float literals are
exact rationals: 0.4 = 2/5, 0.62 = 31/50, 0.72 = 18/25, 0.38 = 19/50. -/
def frameShapes (n_rows n_columns : ℕ) : List ShapeDict :=
  let x_offset : ℚ := 2/5
  let left_x : ℚ := 1/2
  let right_x : ℚ := (n_columns : ℚ) + x_offset + 1/2
  [ { kind := "rect", x0 := 31/50 + x_offset, y0 := 18/25,
      x1 := (n_columns : ℚ) + x_offset + 19/50, y1 := (n_rows : ℚ) + 19/50,
      lineColor := "darkgray", lineWidth := 2, layer := "below" },
    { kind := "line", x0 := left_x, y0 := 1/2, x1 := right_x, y1 := 1/2,
      lineColor := "black", lineWidth := 4, layer := "below" },
    { kind := "line", x0 := left_x, y0 := 1/2, x1 := left_x, y1 := (n_rows : ℚ) + 1/2,
      lineColor := "black", lineWidth := 4, layer := "below" },
    { kind := "line", x0 := left_x, y0 := (n_rows : ℚ) + 1/2, x1 := left_x + 1/2,
      y1 := (n_rows : ℚ) + 1, lineColor := "black", lineWidth := 4, layer := "below" },
    { kind := "line", x0 := left_x + 1/2, y0 := (n_rows : ℚ) + 1, x1 := right_x,
      y1 := (n_rows : ℚ) + 1, lineColor := "black", lineWidth := 4, layer := "below" },
    { kind := "line", x0 := right_x, y0 := 1/2, x1 := right_x, y1 := (n_rows : ℚ) + 1,
      lineColor := "black", lineWidth := 4, layer := "below" } ]

/-- The markers trace, go.Scatter at source lines 165-173 (mode is always
the constant markers, hoverinfo the constant text). -/
structure ScatterTrace where
  x : List ℚ
  y : List ℚ
  marker : MarkerDict
  hovertext : List String
  hoverinfo : String
deriving DecidableEq

/-- The overlay text trace, go.Scatter at source lines 241-250 (mode text,
hoverinfo skip, showlegend False). -/
structure TextTrace where
  x : List ℚ
  y : List ℚ
  text : List (Option Val)
  textSize : ℚ
  textColor : String
  hoverinfo : String
deriving DecidableEq

/-- The layout margins, source lines 212-217. -/
structure Margin where
  l : ℚ
  r : ℚ
  t : ℚ
  b : ℚ
deriving DecidableEq

/-- The go.Figure built at source lines 222-251: the marker trace, the layout
(annotations, shapes, axis ranges, margins, canvas size) and the optional
overlay text trace added by fig.add_trace. -/
structure Figure where
  scatter : ScatterTrace
  annotations : List AnnotationDict
  shapes : List ShapeDict
  xrange : ℚ × ℚ
  yrange : ℚ × ℚ
  margin : Margin
  width : ℤ
  height : ℤ
  textTrace : Option TextTrace
deriving DecidableEq

/-- Source lines 127-251 after all error checks have passed: the pure assembly
of the figure from the padded values vs, the padded overlay list ot, the
resolved marker colors cl, the resolved marker size ms and font size.
Source line 236 tests overlay_text is not None, but line 117 already replaced
overlay_text by the padded list pad_or_check returned, which is never None, so
the test is always true and the text trace is always added; line 237 tests
isinstance(overlay_text, str), which is always false for the same reason, so
the sentinel branch at line 238 is unreachable and does not appear here.
The index values[idx] read by the hover loop is modelled with getD, total
because idx < n_wells = vs.length on every iteration. -/
def build_figure (vs ot cl : List (Option Val)) (using_custom_colors : Bool)
    (n_rows n_columns : ℕ) (marker : Option MarkerDict) (scale : ℚ) (ms : ℚ)
    (showscale : Bool) (font_size : ℕ) (text_size : Option ℚ)
    (text_color : String) : Figure :=
  let x_offset : ℚ := 2/5
  let label_pad : ℚ := 2/25 * scale
  let grid := wellGrid n_rows n_columns
  let xs := grid.map (fun p => ((p.2 + 1 : ℕ) : ℚ) + x_offset)
  let ys := grid.map (fun p => (n_rows : ℚ) - (p.1 : ℚ))
  let hover := grid.map (fun p =>
      match vs.getD (p.1 * n_columns + p.2) none with
      | some v => wellName p.1 p.2 ++ "<br>" ++ pyStr v
      | none => wellName p.1 p.2)
  let mk := build_marker marker ms cl using_custom_colors showscale
  let left_x : ℚ := 1/2
  let right_x : ℚ := (n_columns : ℚ) + x_offset + 1/2
  let margin : Margin :=
    { l := scale * (20 + 5 * (n_rows : ℚ)), r := scale * 20, t := scale * 20, b := scale * 20 }
  let width := pyInt (60 * scale * (n_columns : ℚ) + margin.l + margin.r)
  let height := pyInt (60 * scale * (n_rows : ℚ) + margin.t + margin.b)
  let ts := text_size.getD ((font_size : ℚ) - 2)
  { scatter := { x := xs, y := ys, marker := mk, hovertext := hover, hoverinfo := "text" }
    annotations := columnLabelAnnotations n_rows n_columns font_size
        ++ rowLabelAnnotations n_rows label_pad font_size
    shapes := frameShapes n_rows n_columns
    xrange := (left_x - 1, right_x + 1)
    yrange := (1/2 - 1, (n_rows : ℚ) + 1 + 1)
    margin := margin
    width := width
    height := height
    textTrace := some
      { x := xs, y := ys, text := ot, textSize := ts, textColor := text_color,
        hoverinfo := "skip" } }

/-- Plate._plate_figure, source lines 90-253 (drops the leading underscore).
The parameter order matches the source; fill_direction is accepted and unused,
as in the source. Errors arise in source order: values is padded or rejected
first (line 116), then overlay_text (line 117), then colors (lines 119-125),
then the default marker size (line 143) and the label font size (line 175) each
divide 500 and 160 by max(n_rows, n_columns), raising ZeroDivisionError when
that maximum is zero. Both divisions truncate like Python int() on nonnegative
operands, which is natural-number division here. -/
def plate_figure (values colors overlay_text : Option (SeqArg Val))
    (n_rows n_columns : ℕ) (marker : Option MarkerDict) (scale : ℚ)
    (marker_size : Option ℚ) (showscale : Bool) (text_size : Option ℚ)
    (text_color : String) (fill_direction : String) : Except PyErr Figure := do
  let n_wells := n_rows * n_columns
  let vs ← pad_or_check n_wells values
  let ot ← pad_or_check n_wells overlay_text
  let cl ← resolve_colors n_wells vs colors
  let ms : ℚ ←
    match marker_size with
    | some s => .ok s
    | none =>
        if max n_rows n_columns = 0 then .error .zeroDivisionError
        else .ok ((min 60 (500 / max n_rows n_columns) : ℕ) : ℚ)
  let font_size : ℕ ←
    if max n_rows n_columns = 0 then .error .zeroDivisionError
    else .ok (min 14 (160 / max n_rows n_columns))
  .ok (build_figure vs ot cl colors.isSome n_rows n_columns marker scale ms
        showscale font_size text_size text_color)

/-- The Plate object, source lines 9-23: it stores the constructor arguments. -/
structure Plate where
  values : Option (SeqArg Val)
  colors : Option (SeqArg Val)
  overlay_text : Option (SeqArg Val)
  n_rows : ℕ
  n_columns : ℕ
  fill_direction : String
deriving DecidableEq

/-- Plate.plot, source lines 25-34, called without extra keyword arguments:
forwards the stored fields to _plate_figure with its default parameters. -/
def Plate.plot (p : Plate) : Except PyErr Figure :=
  plate_figure p.values p.colors p.overlay_text p.n_rows p.n_columns
    none 1 none false none "black" p.fill_direction

/-- The record for one well in the mapping accepted by Plate.from_dict; the
fields model content.get("value"), content.get("color"), content.get("text"),
each none when the key is absent (source lines 63-65). -/
structure WellContent where
  value : Option Val := none
  color : Option Val := none
  text : Option Val := none
deriving DecidableEq

/-- The longest digit prefix of a character list. -/
def digitsPrefix : List Char → List Char
  | [] => []
  | ch :: rest => if ch.isDigit then ch :: digitsPrefix rest else []

/-- The numeric value of a digit string. -/
def digitsToNat (ds : List Char) : ℕ :=
  ds.foldl (fun acc d => 10 * acc + (d.toNat - '0'.toNat)) 0

/-- True when ch is an uppercase letter between A and H. -/
def isUpperAH (ch : Char) : Bool := 'A' ≤ ch && ch ≤ 'H'

/-- True when ch is a lowercase letter between a and h. -/
def isLowerAH (ch : Char) : Bool := 'a' ≤ ch && ch ≤ 'h'

/-- The inner function normalize_well of Plate.from_dict, source lines 43-48:
re.match of ([A-Ha-h])0*(Ds) where Ds is one or more digits, anchored only at
the start, so trailing characters are ignored. The first character must be a
letter from A to H in either case, and is upcased. Backtracking over the
greedy 0* leaves the digit group with the same numeric value as the whole
digit run, so the captured column number is the value of the longest digit
prefix after the letter; no digit there means no match, which raises
ValueError (the InvalidWellNameError of the spec). -/
def normalize_well (w : String) : Except PyErr (Char × ℕ) :=
  match w.data with
  | [] => .error .invalidWellName
  | ch :: rest =>
      if isUpperAH ch || isLowerAH ch then
        let ds := digitsPrefix rest
        if ds.isEmpty then .error .invalidWellName
        else .ok (if isLowerAH ch then Char.ofNat (ch.toNat - 32) else ch, digitsToNat ds)
      else .error .invalidWellName

/-- Python list item assignment lst[i] = v with a possibly negative index: a
negative index counts from the end; an index out of range after that raises
IndexError. -/
def pySetIdx (l : List α) (i : ℤ) (v : α) : Except PyErr (List α) :=
  let j : ℤ := if i < 0 then i + l.length else i
  if 0 ≤ j ∧ j < l.length then .ok (l.set j.toNat v) else .error .indexError

/-- Plate.from_dict, source lines 36-67. The well mapping is modelled as an
association list iterated in order (Python dict iteration is insertion order).
For each entry the name is parsed by normalize_well, the zero-based row and
column indices are computed, entries with row_idx >= n_rows or
col_idx >= n_columns are skipped (source line 58, the only range check), and
otherwise the three arrays are written at idx = row_idx * n_columns + col_idx
with Python indexing semantics, which for a negative idx writes from the end. -/
def from_dict (well_dict : List (String × WellContent)) (n_rows n_columns : ℕ) :
    Except PyErr Plate := do
  let n_wells := n_rows * n_columns
  let init : List (Option Val) := List.replicate n_wells none
  let arrays ← well_dict.foldlM (fun acc entry => do
      let rc ← normalize_well entry.1
      let row_idx : ℤ := (rc.1.toNat : ℤ) - ('A'.toNat : ℤ)
      let col_idx : ℤ := (rc.2 : ℤ) - 1
      if (n_rows : ℤ) ≤ row_idx ∨ (n_columns : ℤ) ≤ col_idx then
        .ok acc
      else do
        let idx := row_idx * (n_columns : ℤ) + col_idx
        let vs ← pySetIdx acc.1 idx entry.2.value
        let cs ← pySetIdx acc.2.1 idx entry.2.color
        let ts ← pySetIdx acc.2.2 idx entry.2.text
        .ok (vs, cs, ts))
    (init, init, init)
  .ok { values := some (.list arrays.1), colors := some (.list arrays.2.1),
        overlay_text := some (.list arrays.2.2),
        n_rows := n_rows, n_columns := n_columns, fill_direction := "horizontal" }

/-- One dataframe row: a mapping from column name to an optional cell value. -/
def rowGet (r : List (String × Option Val)) (c : String) : Option Val :=
  match r.find? (fun p => p.1 == c) with
  | some p => p.2
  | none => none

/-- The subscript row[c] of a dataframe row: KeyError when the column is
absent, unlike row.get(c) which yields None. -/
def rowGetStrict (r : List (String × Option Val)) (c : String) :
    Except PyErr (Option Val) :=
  match r.find? (fun p => p.1 == c) with
  | some p => .ok p.2
  | none => .error .keyError

/-- The dict comprehension of Plate.from_dataframe, source lines 80-87: one
record per row, keyed by the well cell row[well_col] (KeyError when that
column is missing), with value, color and text read by row.get. -/
def buildRecordDict (df : List (List (String × Option Val)))
    (well_col value_col color_col text_col : String) :
    Except PyErr (List (Option Val × WellContent)) :=
  df.mapM (fun r => do
    let w ← rowGetStrict r well_col
    .ok (w, { value := rowGet r value_col, color := rowGet r color_col,
              text := rowGet r text_col }))

/-- The keyword parameter names of Plate.from_dict beyond the positional well
mapping, source lines 36-42: only n_rows and n_columns. -/
def fromDictAcceptedKeywords : List String := ["n_rows", "n_columns"]

/-- The keyword argument names Plate.from_dataframe passes to from_dict at
source line 88: n_rows, n_columns and fill_direction. -/
def fromDataframePassedKeywords : List String := ["n_rows", "n_columns", "fill_direction"]

/-- Plate.from_dataframe, source lines 69-88. The record mapping is built
first (the argument expression is evaluated before the call), then the call
cls.from_dict(record_dict, n_rows=..., n_columns=..., fill_direction=...) binds
its keyword arguments before the body of from_dict runs; fill_direction is not
a parameter of from_dict, so the binding raises TypeError. The then branch
below is unreachable, because the keyword check is decidably false; the empty
mapping passed there stands in for the record dict, whose keys from_dict would
only see if that branch could run. -/
def from_dataframe (df : List (List (String × Option Val)))
    (well_col value_col color_col text_col : String) (n_rows n_columns : ℕ) :
    Except PyErr Plate := do
  let _record ← buildRecordDict df well_col value_col color_col text_col
  if fromDataframePassedKeywords.all (fun k => fromDictAcceptedKeywords.contains k) then
    from_dict [] n_rows n_columns
  else
    .error .typeError

theorem exbind_ok (a : α) (f : α → Except PyErr β) : (Except.ok a >>= f) = f a := rfl

theorem exbind_error (e : PyErr) (f : α → Except PyErr β) :
    ((Except.error e : Except PyErr α) >>= f) = .error e := rfl

theorem pad_or_check_list_ok {α} (n : ℕ) (xs : List (Option α)) (h : xs.length ≤ n) :
    pad_or_check n (some (.list xs)) = .ok (padded n xs) := by
  simp [pad_or_check, Nat.not_lt.mpr h]

theorem pad_or_check_opt {α} (n : ℕ) (o : Option (List (Option α)))
    (h : (o.getD []).length ≤ n) :
    pad_or_check n (o.map SeqArg.list) = .ok (padded n (o.getD [])) := by
  cases o with
  | none => rfl
  | some xs => exact pad_or_check_list_ok n xs (by simpa using h)

theorem pad_or_check_long {α} (n : ℕ) (xs : List (Option α)) (h : n < xs.length) :
    pad_or_check n (some (.list xs)) = .error .inputError := by
  simp [pad_or_check, h]

theorem pad_or_check_pad {α} (n : ℕ) (xs : List (Option α)) (h : xs.length ≤ n) :
    pad_or_check n (some (.list (xs ++ List.replicate (n - xs.length) none)))
      = pad_or_check n (some (.list xs)) := by
  rw [pad_or_check_list_ok n xs h,
      pad_or_check_list_ok n _ (by simp [Nat.add_sub_cancel' h])]
  simp [padded, Nat.add_sub_cancel' h]

theorem resolve_colors_pad (n : ℕ) (xs : List (Option Val)) (h : xs.length ≤ n)
    (vs : List (Option Val)) :
    resolve_colors n vs (some (.list (xs ++ List.replicate (n - xs.length) none)))
      = resolve_colors n vs (some (.list xs)) := by
  simp only [resolve_colors, pad_or_check_pad n xs h]

theorem padded_length {α} (n : ℕ) (xs : List (Option α)) (h : xs.length ≤ n) :
    (padded n xs).length = n := by
  simp [padded, Nat.add_sub_cancel' h]

theorem padded_getD {α} (n i : ℕ) (xs : List (Option α)) :
    (padded n xs).getD i none = xs.getD i none := by
  rcases lt_or_ge i xs.length with hi | hi
  · simp [padded, List.getD_eq_getElem?_getD, List.getElem?_append_left hi]
  · rw [List.getD_eq_getElem?_getD, List.getD_eq_getElem?_getD, padded,
        List.getElem?_append_right hi, List.getElem?_replicate, List.getElem?_eq_none hi]
    split <;> rfl

theorem padded_getElem? {α} (n i : ℕ) (xs : List (Option α)) (hi : i < n)
    (hx : xs.length ≤ n) : (padded n xs)[i]? = some (xs.getD i none) := by
  rcases lt_or_ge i xs.length with h | h
  · rw [padded, List.getElem?_append_left h, List.getD_eq_getElem?_getD,
        List.getElem?_eq_getElem h]
    rfl
  · rw [padded, List.getElem?_append_right h, List.getElem?_replicate,
        if_pos (by omega), List.getD_eq_getElem?_getD, List.getElem?_eq_none h]
    rfl

theorem padded_all {α} (n : ℕ) (xs : List (Option α)) (p : Option α → Bool)
    (hp : p none = true) : (padded n xs).all p = xs.all p := by
  rw [padded, List.all_append]
  have h2 : (List.replicate (n - xs.length) (none : Option α)).all p = true := by
    simp only [List.all_eq_true]
    intro x hx
    rw [(List.eq_of_mem_replicate hx)]
    exact hp
  rw [h2, Bool.and_true]

theorem rowMajor_div (c i j : ℕ) (hc : 0 < c) (hj : j < c) : (i * c + j) / c = i := by
  rw [Nat.mul_comm i c, Nat.mul_add_div hc, Nat.div_eq_of_lt hj, Nat.add_zero]

theorem rowMajor_mod (c i j : ℕ) (hj : j < c) : (i * c + j) % c = j := by
  rw [Nat.mul_comm i c, Nat.mul_add_mod, Nat.mod_eq_of_lt hj]

theorem rowMajor_lt (r c i j : ℕ) (hi : i < r) (hj : j < c) : i * c + j < r * c := by
  have h1 : i * c + j < (i + 1) * c := by rw [Nat.succ_mul]; omega
  have h2 : (i + 1) * c ≤ r * c := Nat.mul_le_mul_right c hi
  omega

theorem wellGrid_eq (r c : ℕ) (hc : 0 < c) :
    wellGrid r c = (List.range (r * c)).map (fun k => (k / c, k % c)) := by
  induction r with
  | zero => simp [wellGrid]
  | succ r ih =>
      rw [wellGrid, List.range_succ, List.flatMap_append,
          show (List.range r).flatMap (fun i => (List.range c).map (fun j => (i, j)))
            = wellGrid r c from rfl,
          ih, Nat.succ_mul, List.range_add, List.map_append]
      congr 1
      simp only [List.flatMap_cons, List.flatMap_nil, List.append_nil, List.map_map]
      apply List.map_congr_left
      intro j hj
      have hjc : j < c := List.mem_range.mp hj
      have hdiv : (r * c + j) / c = r := by
        rw [Nat.mul_comm r c, Nat.mul_add_div hc, Nat.div_eq_of_lt hjc, Nat.add_zero]
      have hmod : (r * c + j) % c = j := by
        rw [Nat.mul_comm r c, Nat.mul_add_mod, Nat.mod_eq_of_lt hjc]
      simp [Function.comp, hdiv, hmod]

theorem wellGrid_length (r c : ℕ) (hc : 0 < c) : (wellGrid r c).length = r * c := by
  rw [wellGrid_eq r c hc]
  simp

theorem wellGrid_getElem? (r c i j : ℕ) (hc : 0 < c) (hi : i < r) (hj : j < c) :
    (wellGrid r c)[i * c + j]? = some (i, j) := by
  rw [wellGrid_eq r c hc, List.getElem?_map,
      List.getElem?_range (rowMajor_lt r c i j hi hj)]
  simp [rowMajor_div c i j hc hj, rowMajor_mod c i j hj]

theorem max_ne_zero (r c : ℕ) (hr : 0 < r) : ¬ (max r c = 0) := by omega

theorem plate_figure_reduce_default_colors
    (r c : ℕ) (hr : 0 < r) (hc : 0 < c)
    (vsO otO : Option (List (Option Val)))
    (hv : (vsO.getD []).length ≤ r * c) (ho : (otO.getD []).length ≤ r * c)
    (marker : Option MarkerDict) (scale : ℚ) (msize : Option ℚ) (ss : Bool)
    (tsize : Option ℚ) (tc fd : String) :
    plate_figure (vsO.map .list) none (otO.map .list) r c marker scale msize ss tsize tc fd
      = .ok (build_figure (padded (r * c) (vsO.getD [])) (padded (r * c) (otO.getD []))
          ((padded (r * c) (vsO.getD [])).map (fun v => some (v.getD (.num 0))))
          false r c marker scale
          (msize.getD ((min 60 (500 / max r c) : ℕ) : ℚ)) ss
          (min 14 (160 / max r c)) tsize tc) := by
  have hr0 : r ≠ 0 := hr.ne'
  simp only [plate_figure, pad_or_check_opt _ _ hv, pad_or_check_opt _ _ ho, exbind_ok,
    resolve_colors, Option.isSome_none]
  cases msize with
  | some s => simp [exbind_ok, hr0]
  | none => simp [exbind_ok, hr0]

theorem plate_figure_reduce_custom_colors
    (r c : ℕ) (hr : 0 < r) (hc : 0 < c)
    (vsO otO : Option (List (Option Val)))
    (hv : (vsO.getD []).length ≤ r * c) (ho : (otO.getD []).length ≤ r * c)
    (cs : List (Option Val)) (hcl : cs.length ≤ r * c)
    (hall : cs.all isStrOrNone = true)
    (marker : Option MarkerDict) (scale : ℚ) (msize : Option ℚ) (ss : Bool)
    (tsize : Option ℚ) (tc fd : String) :
    plate_figure (vsO.map .list) (some (.list cs)) (otO.map .list) r c marker scale msize
        ss tsize tc fd
      = .ok (build_figure (padded (r * c) (vsO.getD [])) (padded (r * c) (otO.getD []))
          ((padded (r * c) cs).map (fun x => some (x.getD (.str "rgba(0,0,0,0)"))))
          true r c marker scale
          (msize.getD ((min 60 (500 / max r c) : ℕ) : ℚ)) ss
          (min 14 (160 / max r c)) tsize tc) := by
  have hr0 : r ≠ 0 := hr.ne'
  have hall2 : (padded (r * c) cs).all isStrOrNone = true := by
    rw [padded_all _ _ _ rfl]
    exact hall
  simp only [plate_figure, pad_or_check_opt _ _ hv, pad_or_check_opt _ _ ho, exbind_ok,
    resolve_colors, pad_or_check_list_ok _ _ hcl, Option.isSome_some, hall2, if_true]
  cases msize with
  | some s => simp [exbind_ok, hr0]
  | none => simp [exbind_ok, hr0]

theorem pyInt_eq_floor (q : ℚ) (h : 0 ≤ q) : pyInt q = ⌊q⌋ := by
  rw [pyInt, if_pos h]
  rfl

/-- Claim C8: for every grid with positive rows and columns and every positive
scale, the canvas has margin.left = scale*(20+5*n_rows), margin.right =
margin.top = margin.bottom = scale*20, width = floor of 60*scale*n_columns plus
the horizontal margins, and height = floor of 60*scale*n_rows plus the vertical
margins. -/
theorem canvas_dimensions_law (r c : ℕ) (hr : 0 < r) (hc : 0 < c)
    (scale : ℚ) (hs : 0 < scale)
    (msize : Option ℚ) (ss : Bool) (tsize : Option ℚ) (tc fd : String) :
    (plate_figure none none none r c none scale msize ss tsize tc fd).map
      (fun f => (f.margin.l, f.margin.r, f.margin.t, f.margin.b, f.width, f.height))
    = .ok (scale * (20 + 5 * (r : ℚ)), scale * 20, scale * 20, scale * 20,
        ⌊60 * scale * (c : ℚ) + scale * (20 + 5 * (r : ℚ)) + scale * 20⌋,
        ⌊60 * scale * (r : ℚ) + scale * 20 + scale * 20⌋) := by
  have hred := plate_figure_reduce_default_colors r c hr hc none none (by simp) (by simp)
      none scale msize ss tsize tc fd
  rw [show (Option.map SeqArg.list (none : Option (List (Option Val)))) = none from rfl] at hred
  rw [hred]
  have h1 : (0 : ℚ) ≤ 60 * scale * (c : ℚ) + scale * (20 + 5 * (r : ℚ)) + scale * 20 := by
    positivity
  have h2 : (0 : ℚ) ≤ 60 * scale * (r : ℚ) + scale * 20 + scale * 20 := by
    positivity
  simp [Except.map, build_figure, pyInt_eq_floor _ h1, pyInt_eq_floor _ h2]

/-- Witness for canvas_dimensions_law at the 8 by 12 plate with scale 1: the
margins are 60, 20, 20, 20 and the canvas is 800 by 520 pixels. -/
theorem canvas_dimensions_law_witness :
    0 < (8 : ℕ) ∧ 0 < (12 : ℕ) ∧ 0 < (1 : ℚ) ∧
    (plate_figure none none none 8 12 none 1 none false none "black" "horizontal").map
      (fun f => (f.margin.l, f.margin.r, f.margin.t, f.margin.b, f.width, f.height))
    = .ok (60, 20, 20, 20, 800, 520) :=
  ⟨by decide, by decide, by norm_num,
    (canvas_dimensions_law 8 12 (by decide) (by decide) 1 (by norm_num)
        none false none "black" "horizontal").trans
      (congrArg Except.ok (by norm_num))⟩

/-- Claim C4: when colors is omitted, the resolved marker color at every well
index is the numeric color 0 for a null value and the value itself otherwise,
values beyond the given sequence being null by padding. -/
theorem color_fallback_law (r c : ℕ) (hr : 0 < r) (hc : 0 < c)
    (vsO otO : Option (List (Option Val)))
    (hv : (vsO.getD []).length ≤ r * c) (ho : (otO.getD []).length ≤ r * c)
    (i : ℕ) (hi : i < r * c)
    (scale : ℚ) (msize : Option ℚ) (ss : Bool) (tsize : Option ℚ) (tc fd : String) :
    (plate_figure (vsO.map .list) none (otO.map .list) r c none scale msize ss
        tsize tc fd).map
      (fun f => (f.scatter.marker.color.getD []).getD i none)
    = .ok (some (((vsO.getD []).getD i none).getD (.num 0))) := by
  rw [plate_figure_reduce_default_colors r c hr hc vsO otO hv ho none scale msize ss
      tsize tc fd]
  simp [Except.map, build_figure, build_marker, List.getD_eq_getElem?_getD,
    List.getElem?_map, padded_getElem? _ _ _ hi hv]

/-- Witness for color_fallback_law on a 2 by 2 grid with values [3, null] at
well index 1, whose null value resolves to the numeric color 0. -/
theorem color_fallback_law_witness :
    0 < 2 ∧ 1 < 2 * 2 ∧
    (plate_figure (some (.list [some (.num 3), none])) none none 2 2 none 1 none
        false none "black" "horizontal").map
      (fun f => (f.scatter.marker.color.getD []).getD 1 none)
    = .ok (some (.num 0)) :=
  ⟨by decide, by decide,
    color_fallback_law 2 2 (by decide) (by decide) (some [some (.num 3), none]) none
      (by decide) (by decide) 1 (by decide) 1 none false none "black" "horizontal"⟩

/-- Claim C5: when colors is provided with every entry a string or null, every
null entry, padding included, becomes the transparent color rgba(0,0,0,0) in
the resolved marker colors and every non-null entry passes through unchanged at
its position. -/
theorem transparent_null_law (r c : ℕ) (hr : 0 < r) (hc : 0 < c)
    (cs : List (Option Val)) (hcl : cs.length ≤ r * c) (hall : cs.all isStrOrNone = true)
    (vsO otO : Option (List (Option Val)))
    (hv : (vsO.getD []).length ≤ r * c) (ho : (otO.getD []).length ≤ r * c)
    (i : ℕ) (hi : i < r * c)
    (scale : ℚ) (msize : Option ℚ) (ss : Bool) (tsize : Option ℚ) (tc fd : String) :
    (plate_figure (vsO.map .list) (some (.list cs)) (otO.map .list) r c none scale
        msize ss tsize tc fd).map
      (fun f => (f.scatter.marker.color.getD []).getD i none)
    = .ok (some ((cs.getD i none).getD (.str "rgba(0,0,0,0)"))) := by
  rw [plate_figure_reduce_custom_colors r c hr hc vsO otO hv ho cs hcl hall none scale
      msize ss tsize tc fd]
  simp [Except.map, build_figure, build_marker, List.getD_eq_getElem?_getD,
    List.getElem?_map, padded_getElem? _ _ _ hi hcl]

/-- Witness for transparent_null_law on a 2 by 2 grid with colors
[red, null, blue, null] at well index 1, whose null becomes rgba(0,0,0,0). -/
theorem transparent_null_law_witness :
    0 < 2 ∧ 1 < 2 * 2 ∧
    (plate_figure none (some (.list [some (.str "red"), none, some (.str "blue"), none]))
        none 2 2 none 1 none false none "black" "horizontal").map
      (fun f => (f.scatter.marker.color.getD []).getD 1 none)
    = .ok (some (.str "rgba(0,0,0,0)")) :=
  ⟨by decide, by decide,
    transparent_null_law 2 2 (by decide) (by decide)
      [some (.str "red"), none, some (.str "blue"), none] (by decide) (by decide)
      none none (by decide) (by decide) 1 (by decide) 1 none false none "black"
      "horizontal"⟩

theorem padded_getElem?_getD {α} (n i : ℕ) (xs : List (Option α)) :
    (padded n xs)[i]?.getD none = xs[i]?.getD none := by
  have h := padded_getD n i xs
  simpa [List.getD_eq_getElem?_getD] using h

/-- Claim C7: the engine emits exactly n_rows*n_columns markers; the marker of
row index i and column index j (column number j+1) sits at x = (j+1) + 0.4 and
y = n_rows - i, and its hover label is the well name followed by the value
after a line break when the value is non-null, else the bare well name. -/
theorem marker_layout_law (r c : ℕ) (hr : 0 < r) (hc : 0 < c)
    (vsO otO : Option (List (Option Val)))
    (hv : (vsO.getD []).length ≤ r * c) (ho : (otO.getD []).length ≤ r * c)
    (i j : ℕ) (hi : i < r) (hj : j < c)
    (scale : ℚ) (msize : Option ℚ) (ss : Bool) (tsize : Option ℚ) (tc fd : String) :
    (plate_figure (vsO.map .list) none (otO.map .list) r c none scale msize ss
        tsize tc fd).map
      (fun f => (f.scatter.x.length, f.scatter.y.length, f.scatter.hovertext.length,
        f.scatter.x.getD (i * c + j) 0, f.scatter.y.getD (i * c + j) 0,
        f.scatter.hovertext.getD (i * c + j) ""))
    = .ok (r * c, r * c, r * c, ((j + 1 : ℕ) : ℚ) + 2/5, (r : ℚ) - (i : ℚ),
        ((vsO.getD []).getD (i * c + j) none).elim (wellName i j)
          (fun v => wellName i j ++ "<br>" ++ pyStr v)) := by
  rw [plate_figure_reduce_default_colors r c hr hc vsO otO hv ho none scale msize ss
      tsize tc fd]
  simp only [Except.map, build_figure, List.length_map, wellGrid_length r c hc,
    List.getD_eq_getElem?_getD, List.getElem?_map, wellGrid_getElem? r c i j hc hi hj,
    Option.map_some', Option.getD_some, padded_getElem?_getD]
  cases hvij : (vsO.getD [])[i * c + j]?.getD none <;> simp [hvij]

/-- Witness for marker_layout_law on a 2 by 3 grid with values [1]: the well at
row 0, column index 1 has marker position x = 2.4, y = 2, and its value is null
(beyond the sequence), so the hover label is the bare well name. -/
theorem marker_layout_law_witness :
    0 < 2 ∧ 0 < 3 ∧
    (((some [some (Val.num 1)] : Option (List (Option Val))).getD []).length ≤ 2 * 3) ∧
    (((none : Option (List (Option Val))).getD []).length ≤ 2 * 3) ∧
    0 < 2 ∧ 1 < 3 ∧
    (plate_figure (some (.list [some (.num 1)])) none none 2 3 none 1 none false none
        "black" "horizontal").map
      (fun f => (f.scatter.x.length, f.scatter.y.length, f.scatter.hovertext.length,
        f.scatter.x.getD (0 * 3 + 1) 0, f.scatter.y.getD (0 * 3 + 1) 0,
        f.scatter.hovertext.getD (0 * 3 + 1) ""))
    = .ok (2 * 3, 2 * 3, 2 * 3, ((1 + 1 : ℕ) : ℚ) + 2/5, ((2 : ℕ) : ℚ) - ((0 : ℕ) : ℚ),
        ((([some (Val.num 1)] : List (Option Val))).getD (0 * 3 + 1) none).elim
          (wellName 0 1) (fun v => wellName 0 1 ++ "<br>" ++ pyStr v)) :=
  ⟨by decide, by decide, by decide, by decide, by decide, by decide,
    marker_layout_law 2 3 (by decide) (by decide) (some [some (.num 1)]) none
      (by decide) (by decide) 0 1 (by decide) (by decide) 1 none false none "black"
      "horizontal"⟩

theorem pad_or_check_none {α} (n : ℕ) :
    pad_or_check n (none : Option (SeqArg α)) = .ok (List.replicate n none) := rfl

/-- Claim C2: a sequence of length n_rows*n_columns + 1 passed as values,
colors or overlay_text raises InputError whatever its content, and sequences of
length at most n_rows*n_columns raise no error. -/
theorem length_check_law (r c : ℕ) (hr : 0 < r) (hc : 0 < c)
    (xs ys zs : List (Option Val))
    (marker : Option MarkerDict) (scale : ℚ) (msize : Option ℚ) (ss : Bool)
    (tsize : Option ℚ) (tc fd : String) :
    (xs.length = r * c + 1 →
      ∀ carg oarg, plate_figure (some (.list xs)) carg oarg r c marker scale msize ss
        tsize tc fd = .error .inputError)
    ∧ (ys.length = r * c + 1 →
      plate_figure none (some (.list ys)) none r c marker scale msize ss tsize tc fd
        = .error .inputError)
    ∧ (zs.length = r * c + 1 →
      plate_figure none none (some (.list zs)) r c marker scale msize ss tsize tc fd
        = .error .inputError)
    ∧ (xs.length ≤ r * c → ys.length ≤ r * c → zs.length ≤ r * c →
      exceptIsOk (plate_figure (some (.list xs)) (some (.list ys)) (some (.list zs))
        r c marker scale msize ss tsize tc fd) = true) := by
  have hr0 : r ≠ 0 := hr.ne'
  refine ⟨?_, ?_, ?_, ?_⟩
  · intro h carg oarg
    simp only [plate_figure, pad_or_check_long (r * c) xs (by omega), exbind_error]
  · intro h
    simp only [plate_figure, pad_or_check_none, exbind_ok, resolve_colors,
      pad_or_check_long (r * c) ys (by omega), exbind_error]
  · intro h
    simp only [plate_figure, pad_or_check_none, exbind_ok,
      pad_or_check_long (r * c) zs (by omega), exbind_error]
  · intro h1 h2 h3
    simp only [plate_figure, pad_or_check_list_ok (r * c) xs h1,
      pad_or_check_list_ok (r * c) zs h3, exbind_ok, resolve_colors,
      pad_or_check_list_ok (r * c) ys h2]
    by_cases hall : (padded (r * c) ys).all isStrOrNone = true
    · simp only [hall, if_true, exbind_ok]
      cases msize with
      | some s => simp [exbind_ok, hr0, exceptIsOk]
      | none => simp [exbind_ok, hr0, exceptIsOk]
    · simp only [hall, if_false, Bool.false_eq_true, if_neg, exbind_ok]
      cases msize with
      | some s => simp [exbind_ok, hr0, exceptIsOk, hall]
      | none => simp [exbind_ok, hr0, exceptIsOk, hall]

/-- Witness for length_check_law on a 2 by 2 grid: length-5 sequences raise
InputError in each of the three positions, and length-0 sequences succeed. -/
theorem length_check_law_witness :
    plate_figure (some (.list (List.replicate 5 none))) none none 2 2 none 1 none
        false none "black" "horizontal" = .error .inputError
    ∧ plate_figure none (some (.list (List.replicate 5 none))) none 2 2 none 1 none
        false none "black" "horizontal" = .error .inputError
    ∧ plate_figure none none (some (.list (List.replicate 5 none))) 2 2 none 1 none
        false none "black" "horizontal" = .error .inputError
    ∧ exceptIsOk (plate_figure (some (.list [])) (some (.list [])) (some (.list []))
        2 2 none 1 none false none "black" "horizontal") = true :=
  ⟨(length_check_law 2 2 (by decide) (by decide) (List.replicate 5 none) [] [] none 1
      none false none "black" "horizontal").1 (by decide) none none,
   (length_check_law 2 2 (by decide) (by decide) [] (List.replicate 5 none) [] none 1
      none false none "black" "horizontal").2.1 (by decide),
   (length_check_law 2 2 (by decide) (by decide) [] [] (List.replicate 5 none) none 1
      none false none "black" "horizontal").2.2.1 (by decide),
   (length_check_law 2 2 (by decide) (by decide) [] [] [] none 1
      none false none "black" "horizontal").2.2.2 (by decide) (by decide) (by decide)⟩

/-- Claim C6: passing a sequence of length at most n_rows*n_columns to values,
colors or overlay_text produces output identical to passing the same sequence
right-padded with nulls to full length, whatever the other arguments are. -/
theorem padding_law (r c : ℕ) (xs : List (Option Val)) (hx : xs.length ≤ r * c)
    (varg carg oarg : Option (SeqArg Val)) (marker : Option MarkerDict) (scale : ℚ)
    (msize : Option ℚ) (ss : Bool) (tsize : Option ℚ) (tc fd : String) :
    plate_figure (some (.list (xs ++ List.replicate (r * c - xs.length) none))) carg
        oarg r c marker scale msize ss tsize tc fd
      = plate_figure (some (.list xs)) carg oarg r c marker scale msize ss tsize tc fd
    ∧ plate_figure varg (some (.list (xs ++ List.replicate (r * c - xs.length) none)))
        oarg r c marker scale msize ss tsize tc fd
      = plate_figure varg (some (.list xs)) oarg r c marker scale msize ss tsize tc fd
    ∧ plate_figure varg carg
        (some (.list (xs ++ List.replicate (r * c - xs.length) none)))
        r c marker scale msize ss tsize tc fd
      = plate_figure varg carg (some (.list xs)) r c marker scale msize ss tsize tc fd := by
  refine ⟨?_, ?_, ?_⟩
  · simp only [plate_figure, pad_or_check_pad (r * c) xs hx]
  · simp only [plate_figure, resolve_colors_pad (r * c) xs hx, Option.isSome_some]
  · simp only [plate_figure, pad_or_check_pad (r * c) xs hx]

/-- Witness for padding_law on a 2 by 2 grid with the one-entry sequence [1]
padded to four entries in each of the three positions. -/
theorem padding_law_witness :
    [some (Val.num 1)].length ≤ 2 * 2 ∧
    (plate_figure
        (some (.list ([some (Val.num 1)]
          ++ List.replicate (2 * 2 - [some (Val.num 1)].length) none)))
        none none 2 2 none 1 none false none "black" "horizontal"
      = plate_figure (some (.list [some (Val.num 1)])) none none 2 2 none 1 none false
          none "black" "horizontal"
    ∧ plate_figure none
        (some (.list ([some (Val.num 1)]
          ++ List.replicate (2 * 2 - [some (Val.num 1)].length) none)))
        none 2 2 none 1 none false none "black" "horizontal"
      = plate_figure none (some (.list [some (Val.num 1)])) none 2 2 none 1 none false
          none "black" "horizontal"
    ∧ plate_figure none none
        (some (.list ([some (Val.num 1)]
          ++ List.replicate (2 * 2 - [some (Val.num 1)].length) none)))
        2 2 none 1 none false none "black" "horizontal"
      = plate_figure none none (some (.list [some (Val.num 1)])) 2 2 none 1 none false
          none "black" "horizontal") :=
  ⟨by decide,
    padding_law 2 2 [some (Val.num 1)] (by decide) none none none none 1 none false
      none "black" "horizontal"⟩

/-- Counterexample to claim C9: on the default 8 by 12 plate with no overlay
text at all, every resolved overlay entry is null, yet the text-only overlay
trace is still added to the figure, because the None test at source line 236
inspects the padded list produced at line 117, which is never None. -/
theorem overlay_layer_cex :
    (plate_figure none none none 8 12 none 1 none false none "black" "horizontal").map
      (fun f => (f.textTrace.isSome,
        f.textTrace.map (fun tt => tt.text.all (fun t => t.isNone))))
    = .ok (true, some true) := by rfl

/-- Claim C9 as amended: whenever the engine returns a figure at all, the
text-only overlay trace is present, at the same well coordinates as the marker
trace and with hover suppressed, even when every overlay entry is null. -/
theorem overlay_layer_always_emitted
    (values colors overlay_text : Option (SeqArg Val)) (r c : ℕ)
    (marker : Option MarkerDict) (scale : ℚ) (msize : Option ℚ) (ss : Bool)
    (tsize : Option ℚ) (tc fd : String)
    (h : exceptIsOk (plate_figure values colors overlay_text r c marker scale msize ss
      tsize tc fd) = true) :
    (plate_figure values colors overlay_text r c marker scale msize ss tsize tc fd).map
      (fun f => (f.textTrace.isSome,
        f.textTrace.map TextTrace.hoverinfo,
        decide (f.textTrace.map TextTrace.x = some f.scatter.x),
        decide (f.textTrace.map TextTrace.y = some f.scatter.y)))
    = .ok (true, some "skip", true, true) := by
  cases hE : plate_figure values colors overlay_text r c marker scale msize ss
      tsize tc fd with
  | error e => rw [hE] at h; simp [exceptIsOk] at h
  | ok fig =>
    simp only [plate_figure] at hE
    cases hv : pad_or_check (r * c) values with
    | error e => rw [hv, exbind_error] at hE; exact absurd hE (by simp)
    | ok vs =>
    rw [hv, exbind_ok] at hE
    cases ho : pad_or_check (r * c) overlay_text with
    | error e => rw [ho, exbind_error] at hE; exact absurd hE (by simp)
    | ok ot =>
    rw [ho, exbind_ok] at hE
    cases hcl : resolve_colors (r * c) vs colors with
    | error e => rw [hcl, exbind_error] at hE; exact absurd hE (by simp)
    | ok cl =>
    rw [hcl, exbind_ok] at hE
    cases msize with
    | some s =>
        dsimp only at hE
        rw [exbind_ok] at hE
        by_cases hmax : max r c = 0
        · rw [if_pos hmax, exbind_error] at hE
          exact absurd hE (by simp)
        · rw [if_neg hmax, exbind_ok] at hE
          injection hE with hfig
          rw [← hfig]
          simp [build_figure, Except.map]
    | none =>
        dsimp only at hE
        by_cases hmax : max r c = 0
        · rw [if_pos hmax, exbind_error] at hE
          exact absurd hE (by simp)
        · rw [if_neg hmax, exbind_ok, if_neg hmax, exbind_ok] at hE
          injection hE with hfig
          rw [← hfig]
          simp [build_figure, Except.map]

/-- Witness for overlay_layer_always_emitted on the default 8 by 12 plate with
no data at all: the engine succeeds and the overlay trace is present. -/
theorem overlay_layer_always_emitted_witness :
    exceptIsOk (plate_figure none none none 8 12 none 1 none false none "black"
      "horizontal") = true
    ∧ (plate_figure none none none 8 12 none 1 none false none "black"
        "horizontal").map
      (fun f => (f.textTrace.isSome,
        f.textTrace.map TextTrace.hoverinfo,
        decide (f.textTrace.map TextTrace.x = some f.scatter.x),
        decide (f.textTrace.map TextTrace.y = some f.scatter.y)))
    = .ok (true, some "skip", true, true) :=
  ⟨rfl, overlay_layer_always_emitted none none none 8 12 none 1 none false none
    "black" "horizontal" rfl⟩

/-- Claim C1 concerns a code bug: calling the engine with overlay_text equal to
the literal string "values" never succeeds. pad_or_check at source line 117
receives the string, so either the length check fails (fewer than 6 wells,
InputError) or the concatenation of the string with the padding list raises
TypeError; the sentinel branch at source lines 237-238 is unreachable. -/
theorem overlay_sentinel_crashes (r c : ℕ) (marker : Option MarkerDict) (scale : ℚ)
    (msize : Option ℚ) (ss : Bool) (tsize : Option ℚ) (tc fd : String) :
    (6 ≤ r * c →
      plate_figure none none (some (.str "values")) r c marker scale msize ss tsize
        tc fd = .error .typeError)
    ∧ (r * c < 6 →
      plate_figure none none (some (.str "values")) r c marker scale msize ss tsize
        tc fd = .error .inputError) := by
  have hlen : ("values" : String).length = 6 := rfl
  constructor
  · intro h6
    simp only [plate_figure, pad_or_check_none, exbind_ok, pad_or_check, hlen]
    rw [if_neg (by omega), exbind_error]
  · intro h6
    simp only [plate_figure, pad_or_check_none, exbind_ok, pad_or_check, hlen]
    rw [if_pos (by omega), exbind_error]

/-- Witness for overlay_sentinel_crashes on the default 8 by 12 plate: the call
with the sentinel raises TypeError. -/
theorem overlay_sentinel_crashes_witness :
    6 ≤ 8 * 12 ∧
    plate_figure none none (some (.str "values")) 8 12 none 1 none false none "black"
      "horizontal" = .error .typeError :=
  ⟨by decide, (overlay_sentinel_crashes 8 12 none 1 none false none "black"
    "horizontal").1 (by decide)⟩

/-- Claim C3 concerns a code bug: in from_dict on the 8 by 12 grid, the name A0
parses to row index 0 and column number 0; column 0 lies outside 1..12 yet
passes the only range check at source line 58, which tests upper bounds only,
so idx = -1 and Python negative indexing writes the value into well index 95
(the last well, H12) instead of ignoring the entry: the call raises no error
and does write to a well index. -/
theorem from_dict_column_zero_write :
    (from_dict [("A0", { value := some (.num 5) })] 8 12).map
      (fun p => match p.values with
        | some (.list l) => (l.length, l.getD 95 none, (l.take 95).all (fun v => v.isNone))
        | _ => (0, none, false))
    = .ok (96, some (.num 5), true) := by rfl

/-- Claim C10: from_dataframe never returns a Plate: whatever the dataframe,
the result is an error, and whenever the record mapping builds successfully the
error is the TypeError produced by binding the unexpected fill_direction
keyword argument in the call to from_dict at source line 88. -/
theorem from_dataframe_always_type_error
    (df : List (List (String × Option Val))) (wc vc cc tc : String) (r c : ℕ) :
    exceptIsOk (from_dataframe df wc vc cc tc r c) = false
    ∧ (∀ recs, buildRecordDict df wc vc cc tc = .ok recs →
        from_dataframe df wc vc cc tc r c = .error .typeError) := by
  constructor
  · cases hb : buildRecordDict df wc vc cc tc with
    | error e =>
        simp only [from_dataframe, hb, exbind_error]
        rfl
    | ok recs =>
        simp only [from_dataframe, hb, exbind_ok]
        rw [show (fromDataframePassedKeywords.all
          (fun k => fromDictAcceptedKeywords.contains k)) = false from rfl]
        rfl
  · intro recs hb
    simp only [from_dataframe, hb, exbind_ok]
    rw [show (fromDataframePassedKeywords.all
      (fun k => fromDictAcceptedKeywords.contains k)) = false from rfl]
    rfl

/-- Witness for from_dataframe_always_type_error on the empty dataframe: the
record mapping builds, and the call still raises TypeError. -/
theorem from_dataframe_always_type_error_witness :
    buildRecordDict [] "well" "value" "color" "text" = .ok []
    ∧ from_dataframe [] "well" "value" "color" "text" 8 12 = .error .typeError
    ∧ exceptIsOk (from_dataframe [] "well" "value" "color" "text" 8 12) = false :=
  ⟨rfl,
   (from_dataframe_always_type_error [] "well" "value" "color" "text" 8 12).2 [] rfl,
   (from_dataframe_always_type_error [] "well" "value" "color" "text" 8 12).1⟩
